import Mathlib

/-!
Verification of `docs/examples/kfserving/src/tempo.py`: a two-model inference
pipeline that routes a prediction request either to an sklearn classifier or,
depending on its first output element, to an xgboost classifier.

The embedding is trace-based: model invocations and the diagnostic `print` are
recorded as events, the behaviour of the external serving framework is an
interpretation function `Model → payload → Except ε (List Int)`, and the
routing function `classifier` is translated line by line from the Python
source.  Result arrays are modelled as `List Int` (the routing logic only ever
compares the first element with the literal `1`); payloads are opaque values
of an arbitrary type `α`, and framework-level failures carry an arbitrary
error type `ε`.
-/

namespace Tempo

/-- The framework tags used by the example (`tempo.serve.metadata.ModelFramework`);
only the two members referenced by the file are modelled. -/
inductive ModelFramework where
  | SKLearn
  | XGBoost
deriving DecidableEq, Repr

/-- A model reference (`tempo.serve.model.Model`): symbolic name, framework tag,
local artifact folder and remote URI.  Immutable once constructed. -/
structure Model where
  name : String
  platform : ModelFramework
  local_folder : String
  uri : String
deriving DecidableEq, Repr

/-- The named grouping of the two model references
(`tempo.serve.pipeline.PipelineModels(sklearn=..., xgboost=...)`). -/
structure PipelineModels where
  sklearn : Model
  xgboost : Model
deriving DecidableEq, Repr

/-- An error escaping a pipeline invocation: either a failure `e` raised inside
an underlying model invocation (propagated unmodified), or the `IndexError`
raised by `res1[0]` when the sklearn result array is empty. -/
inductive PipelineError (ε : Type) where
  | modelError (e : ε)
  | indexError
deriving DecidableEq, Repr

/-- An observable side effect of one pipeline invocation: a model invocation
(with its handle, payload and outcome) or a line written to the diagnostic
output stream by `print(res1)`. -/
inductive Event (α ε : Type) where
  | call (m : Model) (payload : α) (outcome : Except ε (List Int))
  | printOut (value : List Int)

/-- `true` exactly on model-invocation events. -/
def Event.isCall {α ε : Type} : Event α ε → Bool
  | .call _ _ _ => true
  | .printOut _ => false

/-- `true` exactly on diagnostic-print events. -/
def Event.isPrint {α ε : Type} : Event α ε → Bool
  | .call _ _ _ => false
  | .printOut _ => true

/-- The routing function of the pipeline, translated from

```python
def classifier(payload: np.ndarray) -> Tuple[np.ndarray, str]:
    res1 = classifier.models.sklearn(input=payload)
    print(res1)
    if res1[0] == 1:
        return res1, "sklearn prediction"
    else:
        return classifier.models.xgboost(input=payload), "xgboost prediction"
```

`interp` is the external serving framework: it maps a model handle and a
payload to that model's result array, or to a failure.  The function returns
the pipeline's outcome together with the ordered trace of events of the
invocation.  `res1[0]` on an empty array raises `IndexError`, modelled by
`PipelineError.indexError`; a failure of either model invocation aborts the
invocation at that point and is propagated as `PipelineError.modelError`. -/
def classifier {α ε : Type} (models : PipelineModels)
    (interp : Model → α → Except ε (List Int)) (payload : α) :
    Except (PipelineError ε) (List Int × String) × List (Event α ε) :=
  match interp models.sklearn payload with
  | .error e => (.error (.modelError e), [.call models.sklearn payload (.error e)])
  | .ok res1 =>
    match res1 with
    | [] =>
      (.error .indexError,
       [.call models.sklearn payload (.ok []), .printOut []])
    | x :: t =>
      if x = 1 then
        (.ok (x :: t, "sklearn prediction"),
         [.call models.sklearn payload (.ok (x :: t)), .printOut (x :: t)])
      else
        match interp models.xgboost payload with
        | .error e =>
          (.error (.modelError e),
           [.call models.sklearn payload (.ok (x :: t)), .printOut (x :: t),
            .call models.xgboost payload (.error e)])
        | .ok res2 =>
          (.ok (res2, "xgboost prediction"),
           [.call models.sklearn payload (.ok (x :: t)), .printOut (x :: t),
            .call models.xgboost payload (.ok res2)])

/-- A pipeline handle (`tempo.serve.pipeline.Pipeline`): name, remote URI,
local folder, its `PipelineModels`, and the routing function bound by the
`@pipeline` decorator (parametrised by the external framework `interp`). -/
structure Pipeline (α ε : Type) where
  name : String
  uri : String
  local_folder : String
  models : PipelineModels
  run : (Model → α → Except ε (List Int)) → α →
    Except (PipelineError ε) (List Int × String) × List (Event α ε)

/-- Modelled from the spec: the module `src.constants` (providing
`SKLearnFolder` and `XGBFolder`, imported at the top of the file) is not part
of the provided source.  The spec only says the two model artifacts live at
"well-known local filesystem subpaths (named by external constants)" beneath
the artifacts root, without fixing their names, so the two constants are
modelled as a record of two arbitrary strings and every statement below is
proved for all their values. -/
structure FolderConstants where
  SKLearnFolder : String
  XGBFolder : String
deriving DecidableEq, Repr

/-- The factory function `get_tempo_artifacts(artifacts_folder)`, translated
from the Python source.  It constructs the sklearn and xgboost model
references, then declares the pipeline whose routing function captures the
`PipelineModels` grouping of those two handles, and returns all three.
The extra `consts` argument carries the two external folder constants
(see `FolderConstants`); `α`/`ε` fix the payload and framework-error types. -/
def get_tempo_artifacts (α ε : Type) (consts : FolderConstants)
    (artifacts_folder : String) : Pipeline α ε × Model × Model :=
  let sklearn_model : Model :=
    { name := "test-iris-sklearn"
      platform := ModelFramework.SKLearn
      local_folder := artifacts_folder ++ "/" ++ consts.SKLearnFolder
      uri := "s3://tempo/basic/sklearn" }
  let xgboost_model : Model :=
    { name := "test-iris-xgboost"
      platform := ModelFramework.XGBoost
      local_folder := artifacts_folder ++ "/" ++ consts.XGBFolder
      uri := "s3://tempo/basic/xgboost" }
  let models : PipelineModels :=
    { sklearn := sklearn_model, xgboost := xgboost_model }
  ({ name := "classifier"
     uri := "s3://tempo/basic/pipeline"
     local_folder := artifacts_folder ++ "/classifier"
     models := models
     run := fun interp payload => classifier models interp payload },
   sklearn_model, xgboost_model)

/-! ## Concrete artifacts used by the witnesses -/

/-- The artifacts produced by the factory for a sample artifacts root and
sample folder constants, at payload type `List Int` and error type `String`. -/
def exArtifacts : Pipeline (List Int) String × Model × Model :=
  get_tempo_artifacts (List Int) String ⟨"sklearn", "xgboost"⟩ "/tmp/artifacts"

/-- The `PipelineModels` grouping of the sample artifacts. -/
def exModels : PipelineModels := exArtifacts.1.models

/-- A framework behaviour where the sklearn model answers `[1]`. -/
def exInterpSk1 : Model → List Int → Except String (List Int) :=
  fun _ _ => .ok [1]

/-- A framework behaviour where the sklearn model answers `[0]` and the
xgboost model answers `[2, 7]`. -/
def exInterpSk0 : Model → List Int → Except String (List Int) :=
  fun m _ => if m.name = "test-iris-sklearn" then .ok [0] else .ok [2, 7]

/-- A framework behaviour where the sklearn model fails. -/
def exInterpSkErr : Model → List Int → Except String (List Int) :=
  fun _ _ => .error "sklearn boom"

/-- A framework behaviour where the sklearn model answers `[0]` and the
xgboost model fails. -/
def exInterpXgErr : Model → List Int → Except String (List Int) :=
  fun m _ => if m.name = "test-iris-sklearn" then .ok [0] else .error "xgboost boom"

/-- A framework behaviour where the sklearn model answers the empty array. -/
def exInterpEmpty : Model → List Int → Except String (List Int) :=
  fun _ _ => .ok []

/-! ## Claims -/

/-- C1: for every payload on which the sklearn model's first output element
equals 1, the routing function returns the pair (sklearn result,
"sklearn prediction") — the trace is exactly the sklearn call followed by the
diagnostic print — and (the two handles being distinct) the xgboost model is
never invoked. -/
theorem classifier_sklearn_branch {α ε : Type} (models : PipelineModels)
    (interp : Model → α → Except ε (List Int)) (payload : α) (t : List Int)
    (h1 : interp models.sklearn payload = .ok (1 :: t)) :
    classifier models interp payload =
      (.ok (1 :: t, "sklearn prediction"),
       [.call models.sklearn payload (.ok (1 :: t)), .printOut (1 :: t)]) ∧
    (models.xgboost ≠ models.sklearn →
      ∀ (pl : α) (out : Except ε (List Int)),
        Event.call models.xgboost pl out ∉ (classifier models interp payload).snd) := by
  have hmain : classifier models interp payload =
      (.ok (1 :: t, "sklearn prediction"),
       [.call models.sklearn payload (.ok (1 :: t)), .printOut (1 :: t)]) := by
    simp [classifier, h1]
  refine ⟨hmain, ?_⟩
  intro hne pl out hmem
  rw [hmain] at hmem
  simp only [List.mem_cons, List.mem_singleton, List.not_mem_nil, or_false] at hmem
  rcases hmem with hmem | hmem
  · exact hne (congrArg (fun e => match e with
      | Event.call m _ _ => m
      | Event.printOut _ => models.sklearn) hmem)
  · exact Event.noConfusion hmem

/-- C1 witness: with the sklearn model answering `[1]` on payload `[5]`, the
pipeline returns `([1], "sklearn prediction")` and the trace holds only the
sklearn call and the print. -/
theorem classifier_sklearn_branch_witness :
    classifier exModels exInterpSk1 [5] =
      (.ok ([1], "sklearn prediction"),
       [.call exModels.sklearn [5] (.ok [1]), .printOut [1]]) :=
  (classifier_sklearn_branch exModels exInterpSk1 [5] [] rfl).1

/-- C2: for every payload on which the sklearn model's first output element is
not 1, the routing function invokes the xgboost model with the same payload
(the trace records that call) and returns the pair (xgboost result,
"xgboost prediction"). -/
theorem classifier_xgboost_branch {α ε : Type} (models : PipelineModels)
    (interp : Model → α → Except ε (List Int)) (payload : α)
    (x : Int) (t res2 : List Int)
    (h1 : interp models.sklearn payload = .ok (x :: t)) (hx : x ≠ 1)
    (h2 : interp models.xgboost payload = .ok res2) :
    classifier models interp payload =
      (.ok (res2, "xgboost prediction"),
       [.call models.sklearn payload (.ok (x :: t)), .printOut (x :: t),
        .call models.xgboost payload (.ok res2)]) ∧
    Event.call models.xgboost payload (.ok res2) ∈
      (classifier models interp payload).snd := by
  have hmain : classifier models interp payload =
      (.ok (res2, "xgboost prediction"),
       [.call models.sklearn payload (.ok (x :: t)), .printOut (x :: t),
        .call models.xgboost payload (.ok res2)]) := by
    simp [classifier, h1, hx, h2]
  exact ⟨hmain, by rw [hmain]; simp⟩

/-- C2 witness: with the sklearn model answering `[0]` and the xgboost model
answering `[2, 7]` on payload `[5]`, the pipeline returns
`([2, 7], "xgboost prediction")` after calling xgboost with the same payload. -/
theorem classifier_xgboost_branch_witness :
    classifier exModels exInterpSk0 [5] =
      (.ok ([2, 7], "xgboost prediction"),
       [.call exModels.sklearn [5] (.ok [0]), .printOut [0],
        .call exModels.xgboost [5] (.ok [2, 7])]) :=
  (classifier_xgboost_branch exModels exInterpSk0 [5] 0 [] [2, 7]
    rfl (by decide) rfl).1

/-- C3: whenever a pipeline invocation completes normally, the returned tag is
exactly one of the two literals "sklearn prediction" and "xgboost prediction". -/
theorem classifier_tag_dichotomy {α ε : Type} (models : PipelineModels)
    (interp : Model → α → Except ε (List Int)) (payload : α)
    (res : List Int) (tag : String)
    (h : (classifier models interp payload).fst = .ok (res, tag)) :
    tag = "sklearn prediction" ∨ tag = "xgboost prediction" := by
  rcases hsk : interp models.sklearn payload with e | res1
  · simp [classifier, hsk] at h
  · rcases res1 with _ | ⟨x, t⟩
    · simp [classifier, hsk] at h
    · by_cases hx : x = 1
      · subst hx
        simp only [classifier, hsk, if_pos rfl] at h
        exact Or.inl (congrArg Prod.snd (Except.ok.inj h)).symm
      · rcases hxg : interp models.xgboost payload with e | res2
        · simp [classifier, hsk, hx, hxg] at h
        · simp only [classifier, hsk, if_neg hx, hxg] at h
          exact Or.inr (congrArg Prod.snd (Except.ok.inj h)).symm

/-- C3 witness: a normal completion indeed carries one of the two tags. -/
theorem classifier_tag_dichotomy_witness :
    "sklearn prediction" = "sklearn prediction" ∨
    "sklearn prediction" = "xgboost prediction" :=
  classifier_tag_dichotomy exModels exInterpSk1 [5] [1] "sklearn prediction" rfl

/-- C4: every pipeline invocation performs at most two model calls, and the
part of the trace from the diagnostic print onwards (i.e. inside the branches
of the conditional) holds at most one model call — both models are never
invoked within a single branch. -/
theorem classifier_at_most_two_calls {α ε : Type} (models : PipelineModels)
    (interp : Model → α → Except ε (List Int)) (payload : α) :
    ((classifier models interp payload).snd.countP Event.isCall) ≤ 2 ∧
    (((classifier models interp payload).snd.dropWhile
        (fun e => ! e.isPrint)).countP Event.isCall) ≤ 1 := by
  rcases hsk : interp models.sklearn payload with e | res1
  · simp [classifier, hsk, List.countP, List.countP.go, List.dropWhile,
      Event.isCall, Event.isPrint]
  · rcases res1 with _ | ⟨x, t⟩
    · simp [classifier, hsk, List.countP, List.countP.go, List.dropWhile,
        Event.isCall, Event.isPrint]
    · by_cases hx : x = 1
      · subst hx
        simp [classifier, hsk, List.countP, List.countP.go, List.dropWhile,
          Event.isCall, Event.isPrint]
      · rcases hxg : interp models.xgboost payload with e | res2 <;>
          simp [classifier, hsk, hx, hxg, List.countP, List.countP.go,
            List.dropWhile, Event.isCall, Event.isPrint]

/-- A framework behaviour agreeing with `exInterpSk0` on the two declared
models but differing elsewhere (used to witness determinism). -/
def exInterpSk0Alt : Model → List Int → Except String (List Int) :=
  fun m _ =>
    if m.name = "test-iris-sklearn" then .ok [0]
    else if m.name = "test-iris-xgboost" then .ok [2, 7]
    else .error "other model"

/-- C5: for every artifacts root (and every value of the external folder
constants), the factory returns a pipeline whose local folder is the
"classifier" subpath of the root, two model handles whose local folders are
subpaths of the root, and the three fixed remote URIs. -/
theorem get_tempo_artifacts_paths (α ε : Type) (consts : FolderConstants)
    (root : String) :
    (get_tempo_artifacts α ε consts root).1.local_folder = root ++ "/classifier" ∧
    (∃ sub, (get_tempo_artifacts α ε consts root).2.1.local_folder =
      root ++ "/" ++ sub) ∧
    (∃ sub, (get_tempo_artifacts α ε consts root).2.2.local_folder =
      root ++ "/" ++ sub) ∧
    (get_tempo_artifacts α ε consts root).1.uri = "s3://tempo/basic/pipeline" ∧
    (get_tempo_artifacts α ε consts root).2.1.uri = "s3://tempo/basic/sklearn" ∧
    (get_tempo_artifacts α ε consts root).2.2.uri = "s3://tempo/basic/xgboost" :=
  ⟨rfl, ⟨consts.SKLearnFolder, rfl⟩, ⟨consts.XGBFolder, rfl⟩, rfl, rfl, rfl⟩

/-- C6: the routing function handles no errors locally.  A failure of the
sklearn invocation aborts the pipeline immediately and is surfaced carrying
the very same error; a failure of the xgboost invocation (reached when the
sklearn head is not 1) likewise — in both cases the failing call is the last
event, so no retry or recovery happens. -/
theorem classifier_error_propagation {α ε : Type} (models : PipelineModels)
    (interp : Model → α → Except ε (List Int)) (payload : α) (e : ε) :
    (interp models.sklearn payload = .error e →
      classifier models interp payload =
        (.error (.modelError e), [.call models.sklearn payload (.error e)])) ∧
    (∀ (x : Int) (t : List Int), interp models.sklearn payload = .ok (x :: t) →
      x ≠ 1 → interp models.xgboost payload = .error e →
      classifier models interp payload =
        (.error (.modelError e),
         [.call models.sklearn payload (.ok (x :: t)), .printOut (x :: t),
          .call models.xgboost payload (.error e)])) := by
  constructor
  · intro h1
    simp [classifier, h1]
  · intro x t h1 hx h2
    simp [classifier, h1, hx, h2]

/-- C6 witness: a sklearn failure and an xgboost failure each propagate
unmodified on payload `[5]`. -/
theorem classifier_error_propagation_witness :
    classifier exModels exInterpSkErr [5] =
      (.error (.modelError "sklearn boom"),
       [.call exModels.sklearn [5] (.error "sklearn boom")]) ∧
    classifier exModels exInterpXgErr [5] =
      (.error (.modelError "xgboost boom"),
       [.call exModels.sklearn [5] (.ok [0]), .printOut [0],
        .call exModels.xgboost [5] (.error "xgboost boom")]) :=
  ⟨(classifier_error_propagation exModels exInterpSkErr [5] "sklearn boom").1 rfl,
   (classifier_error_propagation exModels exInterpXgErr [5] "xgboost boom").2
     0 [] rfl (by decide) rfl⟩

/-- Helper: every model-invocation event in a trace of `classifier` is a call
to one of the two members of its `PipelineModels`. -/
theorem classifier_calls_declared {α ε : Type} (models : PipelineModels)
    (interp : Model → α → Except ε (List Int)) (payload : α)
    (m : Model) (pl : α) (o : Except ε (List Int))
    (hmem : Event.call m pl o ∈ (classifier models interp payload).snd) :
    m = models.sklearn ∨ m = models.xgboost := by
  rcases hsk : interp models.sklearn payload with e | res1
  · simp [classifier, hsk] at hmem
    exact Or.inl hmem.1
  · rcases res1 with _ | ⟨x, t⟩
    · simp [classifier, hsk] at hmem
      exact Or.inl hmem.1
    · by_cases hx : x = 1
      · subst hx
        simp [classifier, hsk] at hmem
        exact Or.inl hmem.1
      · rcases hxg : interp models.xgboost payload with e | res2 <;>
        · simp [classifier, hsk, hx, hxg] at hmem
          rcases hmem with h | h
          · exact Or.inl h.1
          · exact Or.inr h.1

/-- C7: the pipeline returned by the factory only ever invokes models that
belong to its own `PipelineModels` grouping, and that grouping consists
exactly of the sklearn and xgboost handles constructed (and returned) by the
factory — the handles are captured at pipeline-definition time. -/
theorem pipeline_invokes_only_declared_models {α ε : Type}
    (consts : FolderConstants) (root : String)
    (p : Pipeline α ε) (skm xgm : Model)
    (h : get_tempo_artifacts α ε consts root = (p, skm, xgm)) :
    (∀ (interp : Model → α → Except ε (List Int)) (payload : α)
       (m : Model) (pl : α) (o : Except ε (List Int)),
       Event.call m pl o ∈ (p.run interp payload).snd →
       m = p.models.sklearn ∨ m = p.models.xgboost) ∧
    p.models = PipelineModels.mk skm xgm := by
  have hp : p = (get_tempo_artifacts α ε consts root).1 := by rw [h]
  have hs : skm = (get_tempo_artifacts α ε consts root).2.1 := by rw [h]
  have hxg : xgm = (get_tempo_artifacts α ε consts root).2.2 := by rw [h]
  subst hp hs hxg
  constructor
  · intro interp payload m pl o hmem
    exact classifier_calls_declared _ interp payload m pl o hmem
  · rfl

/-- C7 witness: for the sample artifacts, the pipeline's `PipelineModels` is
exactly the pair of returned handles. -/
theorem pipeline_invokes_only_declared_models_witness :
    exArtifacts.1.models = PipelineModels.mk exArtifacts.2.1 exArtifacts.2.2 :=
  (pipeline_invokes_only_declared_models ⟨"sklearn", "xgboost"⟩ "/tmp/artifacts"
    exArtifacts.1 exArtifacts.2.1 exArtifacts.2.2 rfl).2

/-- C8: whenever the sklearn invocation succeeds, the trace starts with that
call immediately followed by the diagnostic print of the sklearn result —
before the branch decision, hence in both branches — and everything after the
print is a model call: the print is the only local side effect of the routing
function, and it happens exactly once. -/
theorem classifier_print_before_branch {α ε : Type} (models : PipelineModels)
    (interp : Model → α → Except ε (List Int)) (payload : α) (res1 : List Int)
    (h1 : interp models.sklearn payload = .ok res1) :
    (∃ rest, (classifier models interp payload).snd =
        Event.call models.sklearn payload (.ok res1) :: Event.printOut res1 :: rest ∧
        ∀ e ∈ rest, Event.isCall e = true) ∧
    ((classifier models interp payload).snd.countP Event.isPrint) = 1 := by
  rcases res1 with _ | ⟨x, t⟩
  · exact ⟨⟨[], by simp [classifier, h1], by simp⟩,
      by simp [classifier, h1, List.countP, List.countP.go, Event.isPrint]⟩
  · by_cases hx : x = 1
    · subst hx
      exact ⟨⟨[], by simp [classifier, h1], by simp⟩,
        by simp [classifier, h1, List.countP, List.countP.go, Event.isPrint]⟩
    · rcases hxg : interp models.xgboost payload with e | res2
      · exact ⟨⟨[Event.call models.xgboost payload (.error e)],
          by simp [classifier, h1, hx, hxg],
          by simp [Event.isCall]⟩,
          by simp [classifier, h1, hx, hxg, List.countP, List.countP.go,
            Event.isPrint]⟩
      · exact ⟨⟨[Event.call models.xgboost payload (.ok res2)],
          by simp [classifier, h1, hx, hxg],
          by simp [Event.isCall]⟩,
          by simp [classifier, h1, hx, hxg, List.countP, List.countP.go,
            Event.isPrint]⟩

/-- C8 witness: with the sklearn model answering `[1]` on payload `[5]`, the
trace is the sklearn call followed by the single print. -/
theorem classifier_print_before_branch_witness :
    (∃ rest, (classifier exModels exInterpSk1 [5]).snd =
        Event.call exModels.sklearn [5] (.ok [1]) :: Event.printOut [1] :: rest ∧
        ∀ e ∈ rest, Event.isCall e = true) ∧
    ((classifier exModels exInterpSk1 [5]).snd.countP Event.isPrint) = 1 :=
  classifier_print_before_branch exModels exInterpSk1 [5] [1] rfl

/-- C9: if the sklearn model returns an empty array the invocation fails at
the `res1[0]` indexing step — after the print, before any xgboost invocation —
and a normal completion is only possible when the sklearn result is
non-empty. -/
theorem classifier_empty_result_index_failure {α ε : Type}
    (models : PipelineModels) (interp : Model → α → Except ε (List Int))
    (payload : α) :
    (interp models.sklearn payload = .ok [] →
      classifier models interp payload =
        (.error PipelineError.indexError,
         [.call models.sklearn payload (.ok []), .printOut []])) ∧
    (∀ out, (classifier models interp payload).fst = .ok out →
      ∀ res1, interp models.sklearn payload = .ok res1 → res1 ≠ []) := by
  constructor
  · intro h1
    simp [classifier, h1]
  · intro out hok res1 h1 hempty
    subst hempty
    simp [classifier, h1] at hok

/-- C9 witness: with the sklearn model answering the empty array on payload
`[5]`, the invocation ends in the index failure right after the print. -/
theorem classifier_empty_result_index_failure_witness :
    classifier exModels exInterpEmpty [5] =
      (.error PipelineError.indexError,
       [.call exModels.sklearn [5] (.ok []), .printOut []]) :=
  (classifier_empty_result_index_failure exModels exInterpEmpty [5]).1 rfl

/-- C10: the routing function is deterministic in its inputs — its outcome
depends only on the payload and on what the framework answers for the two
captured model handles on that payload: any two invocations agreeing on those
answers produce identical (result, tag) outcomes. -/
theorem classifier_deterministic {α ε : Type} (m m' : PipelineModels)
    (i i' : Model → α → Except ε (List Int)) (payload : α)
    (hsk : i m.sklearn payload = i' m'.sklearn payload)
    (hxg : i m.xgboost payload = i' m'.xgboost payload) :
    (classifier m i payload).fst = (classifier m' i' payload).fst := by
  have h1' : i' m'.sklearn payload = i m.sklearn payload := hsk.symm
  rcases h1 : i m.sklearn payload with e | res1
  · rw [h1] at h1'
    simp [classifier, h1, h1']
  · rw [h1] at h1'
    rcases res1 with _ | ⟨x, t⟩
    · simp [classifier, h1, h1']
    · by_cases hx : x = 1
      · subst hx
        simp [classifier, h1, h1']
      · have h2' : i' m'.xgboost payload = i m.xgboost payload := hxg.symm
        rcases h2 : i m.xgboost payload with e | res2 <;>
          · rw [h2] at h2'
            simp [classifier, h1, h1', hx, h2, h2']

/-- C10 witness: two framework behaviours agreeing on the two declared models
(but not elsewhere) give the same outcome on payload `[5]`. -/
theorem classifier_deterministic_witness :
    (classifier exModels exInterpSk0 [5]).fst =
    (classifier exModels exInterpSk0Alt [5]).fst :=
  classifier_deterministic exModels exModels exInterpSk0 exInterpSk0Alt [5]
    rfl rfl

end Tempo
